import Mathlib

/-!
Verification of the verifiable-analytics agent pipeline: a shallow embedding of
the intent parser, policy engine, SQL compiler and pipeline orchestrator,
together with theorems settling the specification claims.

External collaborators (the DuckDB connection, the sqlglot validator, the YAML
catalog loader, the system clock, uuid/sha256) are modelled as explicit oracle
parameters gathered in an `Env` record; everything else is translated directly
from the source.
-/

set_option maxRecDepth 4000

/-! ## String utilities (Python `in`, `lower`, `join`, truthiness) -/

/-- A single-quote character as a string (used when rendering SQL literals). -/
def quoteStr : String := String.mk [Char.ofNat 39]

/-- `listBeginsWith pat s` is true when `pat` is an initial segment of `s`. -/
def listBeginsWith : List Char → List Char → Bool
  | [], _ => true
  | _ :: _, [] => false
  | p :: ps, c :: cs => p == c && listBeginsWith ps cs

/-- `listHasSub pat s` is true when `pat` occurs contiguously inside `s`. -/
def listHasSub (pat : List Char) : List Char → Bool
  | [] => listBeginsWith pat []
  | c :: cs => listBeginsWith pat (c :: cs) || listHasSub pat cs

/-- Python `pat in s` on strings: contiguous-substring test. -/
def strContains (s pat : String) : Bool := listHasSub pat.data s.data

/-- Python `str.lower()` (ASCII range, which covers every string in this program). -/
def strLower (s : String) : String := String.mk (s.data.map Char.toLower)

/-- Python `str.upper()` (ASCII range). -/
def strUpper (s : String) : String := String.mk (s.data.map Char.toUpper)

/-- Python `sep.join(parts)`. -/
def joinSep (sep : String) : List String → String
  | [] => ""
  | [x] => x
  | x :: xs => x ++ sep ++ joinSep sep xs

/-! ## Database values

Result cells produced by the query-execution collaborator: numbers (Python
int/float, modelled exactly as rationals), strings, or SQL NULL (Python None).
-/

inductive Value where
  | num (q : ℚ)
  | str (s : String)
  | null
deriving DecidableEq, Repr

/-- Python `isinstance(v, (int, float))`. -/
def isNumericValue : Value → Bool
  | .num _ => true
  | _ => false

/-- Numeric view of a cell. -/
def toNum : Value → Option ℚ
  | .num q => some q
  | _ => none

/-- Python `sorted` on a list of numbers (ascending). -/
def sortAsc (l : List ℚ) : List ℚ := List.insertionSort (· ≤ ·) l

/-! ## Intent parser (src/dsl/parser.py) -/

structure FilterSpec where
  field : String
  op : String
  value : String
deriving DecidableEq, Repr

structure TimeRange where
  startDate : Option String
  endDate : Option String
  grain : String
deriving DecidableEq, Repr

structure SortSpec where
  field : String
  direction : Option String
deriving DecidableEq, Repr

structure DslPlan where
  intent : String
  metric_ids : List String
  dimensions : List String
  filters : List FilterSpec
  time_range : TimeRange
  sort : List SortSpec
  limit : Int
  privacy : Option Int
  exportFmt : String
deriving DecidableEq, Repr

structure FieldReq where
  field : String
  sensitivity : String
deriving DecidableEq, Repr

structure Parsed where
  dsl : DslPlan
  fields_requested : List FieldReq
deriving DecidableEq, Repr

/-- The system clock collaborator: `date.today()` rendered to ISO, and
`(date.today() - timedelta(days=n)).isoformat()`. -/
structure Clock where
  todayIso : String
  daysAgoIso : Nat → String

def detect_intent (query : String) : String :=
  let q := strLower query
  if ["chart", "trend", "plot", "graph", "visuali"].any (fun w => strContains q w) then "chart"
  else if ["table", "list", "export", "break down", "breakdown"].any (fun w => strContains q w) then "table"
  else "analysis"

def detect_metrics (query : String) : List String :=
  let q := strLower query
  let metrics :=
    (if strContains q "net income" then ["net_income"] else []) ++
    (if strContains q "complaint" then ["complaint_volume"] else []) ++
    (if strContains q "asset" then ["total_assets"] else []) ++
    (if strContains q "deposit" then ["total_deposits"] else []) ++
    (if strContains q "npa" || strContains q "non-performing" then ["npa_ratio"] else []) ++
    (if strContains q "tier" || strContains q "capital" then ["tier1_ratio"] else []) ++
    (if strContains q "narrative" then ["complaint_narrative"] else [])
  if metrics.isEmpty then ["complaint_volume"] else metrics

def detect_dimensions (query : String) : List String :=
  let q := strLower query
  let dims :=
    (if strContains q "state" then ["state"] else []) ++
    (if strContains q "product" then ["product"] else []) ++
    (if strContains q "company" || strContains q "bank" then ["bank_name"] else []) ++
    (if strContains q "quarter" || strContains q "quarterly" then ["quarter"] else [])
  if dims.isEmpty then ["quarter"] else dims

/-- Attempt the regex `since (\d{4})` at the head of `s`. -/
def matchSinceAt (s : List Char) : Option String :=
  if listBeginsWith "since ".data s then
    let four := (s.drop 6).take 4
    if four.length == 4 && four.all Char.isDigit then some (String.mk four) else none
  else none

/-- Leftmost match of `re.search(r"since (\d{4})", q)`. -/
def findSinceYear : List Char → Option String
  | [] => none
  | c :: cs =>
    match matchSinceAt (c :: cs) with
    | some y => some y
    | none => findSinceYear cs

/-- Attempt the regex `last (\d+) months?` at the head of `s`. -/
def matchLastMonthsAt (s : List Char) : Option Nat :=
  if listBeginsWith "last ".data s then
    let rest := s.drop 5
    let ds := rest.takeWhile Char.isDigit
    if ds.isEmpty then none
    else if listBeginsWith " month".data (rest.drop ds.length) then
      some (ds.foldl (fun n c => n * 10 + (c.toNat - 48)) 0)
    else none
  else none

/-- Leftmost match of `re.search(r"last (\d+) months?", q)`. -/
def findLastMonths : List Char → Option Nat
  | [] => none
  | c :: cs =>
    match matchLastMonthsAt (c :: cs) with
    | some n => some n
    | none => findLastMonths cs

def detect_time_range (clock : Clock) (query : String) : TimeRange :=
  let q := strLower query
  match findSinceYear q.data with
  | some y => { startDate := some (y ++ "-01-01"), endDate := some clock.todayIso, grain := "quarter" }
  | none =>
    match findLastMonths q.data with
    | some n =>
        { startDate := some (clock.daysAgoIso (n * 30)), endDate := some clock.todayIso
          grain := "month" }
    | none => { startDate := some "2020-01-01", endDate := some clock.todayIso, grain := "quarter" }

/-- Python regex word character `\w` (ASCII range). -/
def isWordChar (c : Char) : Bool := c.isAlphanum || c == '_'

/-- Leftmost match of `re.search(r"\b([A-Z]{2})\b", query)`; `prv` is the
character immediately before the current scan position. -/
def scanTwoUpper (prv : Option Char) : List Char → Option String
  | a :: b :: rest =>
    if a.isUpper && b.isUpper
        && (match prv with | none => true | some p => !isWordChar p)
        && (match rest with | [] => true | r :: _ => !isWordChar r) then
      some (String.mk [a, b])
    else scanTwoUpper (some a) (b :: rest)
  | _ => none

def stateWhitelist : List String := ["CA", "TX", "NY", "FL", "IL", "OH", "PA", "GA", "NC", "MI"]

def detect_filters (query : String) : List FilterSpec :=
  match scanTwoUpper none query.data with
  | some st =>
      if stateWhitelist.contains st then [{ field := "state", op := "=", value := st }] else []
  | none => []

def detect_export (query : String) : String :=
  let q := strLower query
  if strContains q "export" || strContains q "csv" then "csv" else "none"

def needs_narrative (query : String) : List FieldReq :=
  if strContains (strLower query) "narrative" then
    [{ field := "consumer_complaint_narrative", sensitivity := "HIGH" }]
  else []

def parse_nl_to_dsl (clock : Clock) (query : String) : Parsed :=
  { dsl :=
      { intent := detect_intent query
        metric_ids := detect_metrics query
        dimensions := detect_dimensions query
        filters := detect_filters query
        time_range := detect_time_range clock query
        sort := [{ field := (detect_dimensions query).headD "", direction := some "asc" }]
        limit := 200
        privacy := some 10
        exportFmt := detect_export query }
    fields_requested := needs_narrative query }

/-! ## Policy engine (src/policy/engine.py) -/

structure PolicyRequest where
  role : String
  fields_requested : List FieldReq
  privacy : Option Int
deriving DecidableEq, Repr

structure Decision where
  decision : String
  constraints : Option Int
  rationale : String
deriving DecidableEq, Repr

/-- A policy rule: a match predicate over the request, the set of roles exempt
from the rule, a tagged action, its constraints and a rationale. -/
structure Policy where
  id : String
  matchReq : PolicyRequest → Bool
  allowed_roles : List String
  action : String
  constraints : Option Int
  rationale : String

def deny_narrative_fields : Policy :=
  { id := "deny_narrative_fields"
    matchReq := fun req => req.fields_requested.any (fun f => strUpper f.sensitivity == "HIGH")
    allowed_roles := ["compliance_officer", "admin"]
    action := "DENY"
    constraints := none
    rationale := "High-sensitivity narrative fields are restricted. Only compliance_officer or admin roles may access them." }

def min_aggregation : Policy :=
  { id := "min_aggregation"
    matchReq := fun req => decide (req.privacy.getD 10 < 10)
    allowed_roles := []
    action := "ALLOW_WITH_CONSTRAINTS"
    constraints := some 10
    rationale := "Minimum group size of 10 enforced for privacy." }

def DEFAULT_POLICIES : List Policy := [deny_narrative_fields, min_aggregation]

/-- POLICY_EVAL: strictly sequential evaluation; the first matching rule whose
exempt-role set does not include the caller decides the outcome. -/
def policy_eval (req : PolicyRequest) : List Policy → Decision
  | [] => { decision := "ALLOW", constraints := none, rationale := "Request complies with all policies." }
  | p :: rest =>
    if p.matchReq req then
      if p.allowed_roles.contains req.role then policy_eval req rest
      else if p.action == "DENY" then
        { decision := "DENY", constraints := none, rationale := p.rationale }
      else if p.action == "ALLOW_WITH_CONSTRAINTS" then
        { decision := "ALLOW_WITH_CONSTRAINTS", constraints := p.constraints, rationale := p.rationale }
      else policy_eval req rest
    else policy_eval req rest

/-! ## SQL compiler (src/dsl/compiler.py) -/

structure MetricInfo where
  table : String
  expression : String
  outAlias : String
deriving DecidableEq, Repr

def METRIC_SQL : List (String × MetricInfo) :=
  [("net_income", { table := "dp_call_reports", expression := "SUM(net_income)", outAlias := "total_net_income" }),
   ("complaint_volume", { table := "dp_complaints", expression := "COUNT(*)", outAlias := "complaint_count" }),
   ("total_assets", { table := "dp_call_reports", expression := "SUM(assets)", outAlias := "total_assets" }),
   ("total_deposits", { table := "dp_call_reports", expression := "SUM(deposits)", outAlias := "total_deposits" }),
   ("npa_ratio", { table := "dp_call_reports", expression := "AVG(npa)", outAlias := "avg_npa" }),
   ("tier1_ratio", { table := "dp_call_reports", expression := "AVG(tier1_ratio)", outAlias := "avg_tier1_ratio" }),
   ("complaint_narrative", { table := "dp_complaints", expression := "consumer_complaint_narrative", outAlias := "narrative" })]

def DIMENSION_COL : List (String × String) :=
  [("quarter", "quarter"), ("state", "state"), ("product", "product"), ("bank_name", "bank_name"),
   ("date_received", "date_received"), ("company", "company"), ("channel", "channel")]

/-- The derived quarter label for the record-level complaints table. -/
def quarterOverrideExpr : String :=
  "CONCAT(EXTRACT(YEAR FROM date_received), " ++ quoteStr ++ "-Q" ++ quoteStr ++
    ", EXTRACT(QUARTER FROM date_received))"

def DIMENSION_TABLE_OVERRIDE : List (String × List (String × String)) :=
  [("dp_complaints", [("quarter", quarterOverrideExpr)])]

def overridesOf (table : String) : List (String × String) :=
  (DIMENSION_TABLE_OVERRIDE.lookup table).getD []

/-- `_dim_expr`: the SQL expression for a dimension, respecting table overrides. -/
def dimExpr (ov : List (String × String)) (d : String) : String :=
  match ov.lookup d with
  | some e => e
  | none => (DIMENSION_COL.lookup d).getD d

/-- `_dim_alias`: an alias-safe column reference for GROUP BY / ORDER BY. -/
def dimAlias (ov : List (String × String)) (d : String) : String :=
  if (ov.lookup d).isSome then d else (DIMENSION_COL.lookup d).getD d

/-- Effective minimum group size:
`(constraints or {}).get("min_group_size", plan.get("privacy", {}).get("min_group_size", 10))`. -/
def minGroupOf (constraints : Option Int) (plan : DslPlan) : Int :=
  match constraints with
  | some v => v
  | none => plan.privacy.getD 10

def selectPartsOf (plan : DslPlan) (table : String) : List String :=
  let ov := overridesOf table
  plan.dimensions.map (fun d =>
    if (ov.lookup d).isSome then dimExpr ov d ++ " AS " ++ d else dimExpr ov d)
  ++ plan.metric_ids.filterMap (fun m =>
      (METRIC_SQL.lookup m).map (fun info => info.expression ++ " AS " ++ info.outAlias))

def wherePartsOf (plan : DslPlan) (table : String) : List String :=
  let dateCol := if table == "dp_call_reports" then "quarter" else "date_received"
  (match plan.time_range.startDate with
   | some s => if s == "" then [] else [dateCol ++ " >= " ++ quoteStr ++ s ++ quoteStr]
   | none => [])
  ++ (match plan.time_range.endDate with
      | some e => if e == "" then [] else [dateCol ++ " <= " ++ quoteStr ++ e ++ quoteStr]
      | none => [])
  ++ plan.filters.map (fun f => f.field ++ " " ++ f.op ++ " " ++ quoteStr ++ f.value ++ quoteStr)

def groupByOf (plan : DslPlan) (table : String) : String :=
  joinSep ", " (plan.dimensions.map (dimExpr (overridesOf table)))

/-- The HAVING privacy threshold, applied only for tables with
individual-level records: `group_by and min_group and table == "dp_complaints"`. -/
def havingClause (group_by : String) (min_group : Int) (table : String) : String :=
  if group_by ≠ "" ∧ min_group ≠ 0 ∧ table = "dp_complaints" then
    "HAVING COUNT(*) >= " ++ toString min_group
  else ""

def orderByOf (plan : DslPlan) (table : String) : String :=
  joinSep ", " (plan.sort.map (fun s =>
    dimAlias (overridesOf table) s.field ++ " " ++ strUpper (s.direction.getD "asc")))

/-- Final assembly of the SQL text; a clause whose condition fails contributes
the empty string, which is exactly Python's conditional `+=`. -/
def assembleSql (select_parts : List String) (table : String) (where_parts : List String)
    (group_by having order_by : String) (limit : Int) : String :=
  "SELECT " ++ joinSep ", " select_parts ++ " FROM " ++ table
    ++ (if where_parts.isEmpty then "" else " WHERE " ++ joinSep " AND " where_parts)
    ++ (if group_by == "" then "" else " GROUP BY " ++ group_by)
    ++ (if having == "" then "" else " " ++ having)
    ++ (if order_by == "" then "" else " ORDER BY " ++ order_by)
    ++ (if limit == 0 then "" else " LIMIT " ++ toString limit)

/-- The SQL text rendered for a plan whose first metric resolved to `meta`. -/
def renderedSql (plan : DslPlan) (constraints : Option Int) (meta : MetricInfo) : String :=
  let table := meta.table
  let gb := groupByOf plan table
  assembleSql (selectPartsOf plan table) table (wherePartsOf plan table) gb
    (havingClause gb (minGroupOf constraints plan) table) (orderByOf plan table) plan.limit

/-- `compile_dsl_to_sql`, with the external sqlglot check modelled as an oracle
`vld` returning `none` on a clean parse and `some diagnostic` on failure (both
the ParseError wrap and the empty-parse ValueError surface as that diagnostic). -/
def compile_dsl_to_sql (vld : String → Option String) (plan : DslPlan)
    (constraints : Option Int) : Except String String :=
  match plan.metric_ids with
  | [] => .error "No metrics specified in DSL plan"
  | first_metric :: _ =>
    match METRIC_SQL.lookup first_metric with
    | none => .error ("Unknown metric: " ++ first_metric)
    | some meta =>
      let sql := renderedSql plan constraints meta
      match vld sql with
      | some msg => .error msg
      | none => .ok sql

/-! ## Pipeline orchestrator (src/agent/pipeline.py) -/

structure DataProduct where
  name : String
  version : Option String
  freshness : Option String
deriving DecidableEq, Repr

structure QualityRecord where
  dataset : String
  version : String
  freshness : String
  tests_passed : Bool
deriving DecidableEq, Repr

/-- QUALITY_STATUS: freshness + test status for the given datasets, iterated
in catalog order; the test status is the literal `True` of the source. -/
def quality_status (dataset_ids : List String) (catalog : List DataProduct) : List QualityRecord :=
  (catalog.filter (fun dp => dataset_ids.contains dp.name)).map (fun dp =>
    { dataset := dp.name
      version := dp.version.getD "unknown"
      freshness := dp.freshness.getD "unknown"
      tests_passed := true })

structure EvidencePack where
  evidence_pack_id : String
  timestamp : String
  dsl_plan : DslPlan
  policy_decision : Decision
  sql_hash : String
  sql : String
  datasets_quality : List QualityRecord
  result_row_count : Nat
deriving DecidableEq, Repr

/-- MAKE_EVIDENCE_PACK; the fresh uuid, the UTC timestamp and the sha256
digest are supplied by the caller as oracles. -/
def make_evidence_pack (packId now : String) (hashFn : String → String) (dsl : DslPlan)
    (policy_result : Decision) (sql : String) (quality : List QualityRecord)
    (row_count : Nat) : EvidencePack :=
  { evidence_pack_id := packId
    timestamp := now
    dsl_plan := dsl
    policy_decision := policy_result
    sql_hash := hashFn sql
    sql := sql
    datasets_quality := quality
    result_row_count := row_count }

/-- The columns whose value in the FIRST result row (`rows[:1]`) is numeric. -/
def numericCols (columns : List String) (rows : List (List Value)) : List String :=
  columns.filter (fun c =>
    (rows.take 1).any (fun row => isNumericValue (row.getD (columns.indexOf c) Value.null)))

/-- IQR outlier scan over the last first-row-numeric column, run only when the
result has at least 4 rows; quartiles are the sorted values at ranks
`n / 4` and `3 * n / 4`. -/
def detectOutliers (columns : List String) (rows : List (List Value)) : List Nat :=
  match (numericCols columns rows).getLast? with
  | none => []
  | some c =>
    if 4 ≤ rows.length then
      let col_idx := columns.indexOf c
      let values := sortAsc (rows.filterMap (fun row => toNum (row.getD col_idx Value.null)))
      let q1 := values.getD (values.length / 4) 0
      let q3 := values.getD (3 * values.length / 4) 0
      let iqr := q3 - q1
      let lo := q1 - (1.5 : ℚ) * iqr
      let hi := q3 + (1.5 : ℚ) * iqr
      rows.enum.filterMap (fun p =>
        match toNum (p.2.getD col_idx Value.null) with
        | some v => if v < lo ∨ v > hi then some p.1 else none
        | none => none)
    else []

/-- Serialisation of the constraints mapping as `json.dumps` renders it. -/
def constraintsJson : Option Int → String
  | none => "\x7b\x7d"
  | some v => "\x7b\"min_group_size\": " ++ toString v ++ "\x7d"

/-- `_build_explanation`: deterministic templated sentences. -/
def build_explanation (dsl : DslPlan) (row_count : Nat) (outliers : List Nat)
    (policy : Decision) : String :=
  let tr := dsl.time_range
  let parts :=
    ["Produced a **" ++ dsl.intent ++ "** for metric(s) [" ++ joinSep ", " dsl.metric_ids ++
       "] grouped by [" ++ joinSep ", " dsl.dimensions ++ "]."
     , "Time range: " ++ tr.startDate.getD "?" ++ " to " ++ tr.endDate.getD "?" ++
       " (" ++ tr.grain ++ ")."
     , "Returned **" ++ toString row_count ++ "** rows."]
    ++ (if outliers.isEmpty then [] else
        ["**" ++ toString outliers.length ++ " outlier(s)** detected via IQR method."])
    ++ (if policy.decision == "ALLOW_WITH_CONSTRAINTS" then
        ["Policy applied constraints: " ++ constraintsJson policy.constraints ++ "."] else [])
  joinSep " " parts

/-- A record returned by the metadata-search collaborator; only a possible
`name` key is relevant downstream. -/
structure MetaRecord where
  name : Option String
deriving DecidableEq, Repr

/-- The external collaborators of one pipeline invocation. -/
structure Env where
  clock : Clock
  metaSearch : String → List MetaRecord
  exec : String → Except String (List String × List (List Value))
  validate : String → Option String
  catalogProducts : List DataProduct
  packId : String
  now : String
  hashFn : String → String

/-- The pipeline's terminal response dict; a `none` field models an absent key. -/
structure Response where
  status : String
  policy : Option Decision
  explanation : Option String
  alternative : Option String
  dsl : Option DslPlan
  sql : Option String
  error : Option String
  columnsOut : Option (List String)
  dataOut : Option (List (List (String × Value)))
  outlier_indices : Option (List Nat)
  evidence : Option EvidencePack
deriving DecidableEq, Repr

/-- The policy request derived fresh per query from the plan and caller role. -/
def policyRequestOf (plan : Parsed) (user_role : String) : PolicyRequest :=
  { role := user_role, fields_requested := plan.fields_requested, privacy := plan.dsl.privacy }

/-- `run_agent`: the full pipeline. `.error` models an uncaught exception
(compilation/validation failures propagate to the caller); `.ok` carries one of
the three terminal response shapes. -/
def run_agent (env : Env) (query : String) (user_role : String) : Except String Response :=
  let plan := parse_nl_to_dsl env.clock query
  let meta := env.metaSearch query
  let datasets_used := (meta.filterMap (fun m => m.name)).eraseDups
  let policy_result := policy_eval (policyRequestOf plan user_role) DEFAULT_POLICIES
  if policy_result.decision == "DENY" then
    .ok { status := "denied"
          policy := some policy_result
          explanation := some policy_result.rationale
          alternative := some "Try a query without narrative fields, or request access elevation."
          dsl := some plan.dsl
          sql := none, error := none, columnsOut := none, dataOut := none
          outlier_indices := none, evidence := none }
  else
    match compile_dsl_to_sql env.validate plan.dsl policy_result.constraints with
    | .error e => .error e
    | .ok sql =>
      match env.exec sql with
      | .error exc =>
        .ok { status := "error"
              error := some exc
              sql := some sql
              dsl := some plan.dsl
              policy := none, explanation := none, alternative := none, columnsOut := none
              dataOut := none, outlier_indices := none, evidence := none }
      | .ok (columns, rows) =>
        let quality := quality_status datasets_used env.catalogProducts
        let evidence := make_evidence_pack env.packId env.now env.hashFn plan.dsl policy_result
          sql quality rows.length
        let table_data := rows.map (fun row => columns.zip row)
        let outlier_indices := detectOutliers columns rows
        .ok { status := "success"
              dsl := some plan.dsl
              policy := some policy_result
              sql := some sql
              columnsOut := some columns
              dataOut := some table_data
              outlier_indices := some outlier_indices
              evidence := some evidence
              explanation := some (build_explanation plan.dsl rows.length outlier_indices policy_result)
              alternative := none, error := none }

/-- Modelled from the spec: the spec sentence for the outlier metric column
says "the last column that contains numeric values in at least one observed
row"; this refinement target scans every row (the code scans only `rows[:1]`). -/
def metricColSpec (columns : List String) (rows : List (List Value)) : Option String :=
  (columns.filter (fun c =>
    rows.any (fun row => isNumericValue (row.getD (columns.indexOf c) Value.null)))).getLast?

/-! ## Setup for concrete evaluation

Batteries marks the `Rat` arithmetic operations irreducible for the
elaborator; concrete outlier computations need them unfolded. -/

set_option allowUnsafeReducibility true

attribute [local semireducible] Rat.add Rat.sub Rat.mul Rat.ofScientific

deriving instance DecidableEq for Except

/-! ## Concrete inputs used by witnesses and counterexamples -/

def denyDecision : Decision :=
  { decision := "DENY", constraints := none
    rationale := "High-sensitivity narrative fields are restricted. Only compliance_officer or admin roles may access them." }

def allowDecision : Decision :=
  { decision := "ALLOW", constraints := none, rationale := "Request complies with all policies." }

def awcDecision : Decision :=
  { decision := "ALLOW_WITH_CONSTRAINTS", constraints := some 10
    rationale := "Minimum group size of 10 enforced for privacy." }

def clock0 : Clock := { todayIso := "2024-06-30", daysAgoIso := fun _ => "2024-01-02" }

def env1 : Env :=
  { clock := clock0
    metaSearch := fun _ => []
    exec := fun _ => .ok (["n"], [[.num 1]])
    validate := fun _ => none
    catalogProducts := []
    packId := "pack-0"
    now := "t0"
    hashFn := fun _ => "h0" }

def plan1 : Parsed := parse_nl_to_dsl clock0 "complaints"

def cvInfo : MetricInfo :=
  { table := "dp_complaints", expression := "COUNT(*)", outAlias := "complaint_count" }

def sql1 : String := renderedSql plan1.dsl none cvInfo

/-- The SUCCESS response of `run_agent env1 "complaints" "analyst"`. -/
def resp1 : Response :=
  { status := "success"
    policy := some allowDecision
    explanation := some (build_explanation plan1.dsl 1 [] allowDecision)
    alternative := none
    dsl := some plan1.dsl
    sql := some sql1
    error := none
    columnsOut := some ["n"]
    dataOut := some [[("n", Value.num 1)]]
    outlier_indices := some []
    evidence := some (make_evidence_pack "pack-0" "t0" (fun _ => "h0") plan1.dsl allowDecision sql1 [] 1) }

def plan2 : Parsed := parse_nl_to_dsl clock0 "Can I see complaint narratives?"

/-- The DENIED response of `run_agent env1 "Can I see complaint narratives?" "analyst"`. -/
def resp2 : Response :=
  { status := "denied"
    policy := some denyDecision
    explanation := some denyDecision.rationale
    alternative := some "Try a query without narrative fields, or request access elevation."
    dsl := some plan2.dsl
    sql := none, error := none, columnsOut := none, dataOut := none
    outlier_indices := none, evidence := none }

def narrativeField : FieldReq :=
  { field := "consumer_complaint_narrative", sensitivity := "HIGH" }

def reqHighAnalyst : PolicyRequest :=
  { role := "analyst", fields_requested := [narrativeField], privacy := some 10 }

def reqHighAdmin : PolicyRequest :=
  { role := "admin", fields_requested := [narrativeField], privacy := some 10 }

def reqLowGroup : PolicyRequest :=
  { role := "admin", fields_requested := [], privacy := some 5 }

/-- A plan given directly to the compiler (grouped complaint query). -/
def planC2 : DslPlan :=
  { intent := "table"
    metric_ids := ["complaint_volume"]
    dimensions := ["state"]
    filters := []
    time_range := { startDate := none, endDate := none, grain := "quarter" }
    sort := []
    limit := 200
    privacy := some 10
    exportFmt := "none" }

/-- A grouped plan against the pre-aggregated call-reports table. -/
def planC2b : DslPlan :=
  { planC2 with metric_ids := ["net_income"], dimensions := ["quarter"] }

def niInfo : MetricInfo :=
  { table := "dp_call_reports", expression := "SUM(net_income)", outAlias := "total_net_income" }

def planNoMetrics : DslPlan := { planC2 with metric_ids := [] }

def planBadMetric : DslPlan := { planC2 with metric_ids := ["bogus_metric"] }

/-- Columns/rows exhibiting a column that is numeric only after the first row. -/
def c5cols : List String := ["a", "b"]

def c5rows : List (List Value) :=
  [[.num 1, .null], [.num 2, .num 90], [.num 3, .num 2], [.num 4, .num 3]]

def c6rows : List (List Value) :=
  [[.num 10], [.num 12], [.num 11], [.num 13], [.num 12], [.num 90]]

def c10catalog : List DataProduct :=
  [{ name := "dp_complaints", version := some "1.0.0", freshness := some "daily" },
   { name := "dp_call_reports", version := none, freshness := none }]

def c10record : QualityRecord :=
  { dataset := "dp_complaints", version := "1.0.0", freshness := "daily", tests_passed := true }

/-! ## Helper lemmas: strings and substring containment -/

theorem strDataAppend (a b : String) : (a ++ b).data = a.data ++ b.data := rfl

theorem sAppendAssoc (a b c : String) : a ++ b ++ c = a ++ (b ++ c) := by
  cases a; cases b; cases c
  show String.mk _ = String.mk _
  simp [List.append_assoc]

theorem strEqEmptyIff (s : String) : s = "" ↔ s.data = [] :=
  ⟨fun h => by rw [h], fun h => String.ext h⟩

theorem strAppendEqEmpty (a b : String) : a ++ b = "" ↔ a = "" ∧ b = "" := by
  simp [strEqEmptyIff, strDataAppend]

theorem listBeginsWith_self_append (pat rest : List Char) :
    listBeginsWith pat (pat ++ rest) = true := by
  induction pat with
  | nil => rfl
  | cons c cs ih => simp [listBeginsWith, ih]

theorem listHasSub_of_begins {pat s : List Char} (h : listBeginsWith pat s = true) :
    listHasSub pat s = true := by
  cases s with
  | nil => simpa [listHasSub] using h
  | cons c cs => simp [listHasSub, h]

theorem listHasSub_append (pat x y : List Char) : listHasSub pat (x ++ pat ++ y) = true := by
  induction x with
  | nil => simpa using listHasSub_of_begins (listBeginsWith_self_append pat y)
  | cons c cs ih =>
    show listHasSub pat (c :: (cs ++ pat ++ y)) = true
    simp only [listHasSub, ih, Bool.or_true]

theorem strContains_middle (a pat b : String) : strContains (a ++ pat ++ b) pat = true := by
  show listHasSub pat.data (a ++ pat ++ b).data = true
  have h : (a ++ pat ++ b).data = a.data ++ pat.data ++ b.data := rfl
  rw [h]
  exact listHasSub_append pat.data a.data b.data

theorem strContains_of_eq (s a pat b : String) (h : s = a ++ pat ++ b) :
    strContains s pat = true := by
  rw [h]
  exact strContains_middle a pat b

theorem joinSepComma_eq_empty_iff (l : List String) (h : ∀ x ∈ l, x ≠ "") :
    joinSep ", " l = "" ↔ l = [] := by
  match l with
  | [] => simp [joinSep]
  | [x] =>
    simp only [joinSep]
    constructor
    · intro hx
      exact absurd hx (h x (by simp))
    · intro hc
      exact absurd hc (by simp)
  | x :: y :: rest =>
    simp only [joinSep]
    constructor
    · intro hx
      have := (strAppendEqEmpty _ _).mp hx
      have := (strAppendEqEmpty _ _).mp this.1
      exact absurd this.2 (by decide)
    · intro hc
      exact absurd hc (by simp)

/-! ## Helper lemmas: compiler -/

theorem lookup_val_ne (l : List (String × String)) (hl : ∀ p ∈ l, p.2 ≠ "")
    (d v : String) (h : l.lookup d = some v) : v ≠ "" := by
  induction l with
  | nil => simp [List.lookup] at h
  | cons p rest ih =>
    cases p with
    | mk k w =>
      simp only [List.lookup] at h
      cases hk : d == k with
      | true =>
        simp only [hk] at h
        cases h
        exact hl (k, v) (by simp)
      | false =>
        simp only [hk] at h
        exact ih (fun q hq => hl q (by simp [hq])) h

theorem dimcol_ne (d : String) (hd : d ≠ "") : (DIMENSION_COL.lookup d).getD d ≠ "" := by
  cases h : DIMENSION_COL.lookup d with
  | none => simpa using hd
  | some v => simpa using lookup_val_ne DIMENSION_COL (by decide) d v h

theorem dimExpr_ne_empty (table d : String) (hd : d ≠ "") :
    dimExpr (overridesOf table) d ≠ "" := by
  by_cases ht : table = "dp_complaints"
  · subst ht
    have hov : overridesOf "dp_complaints" = [("quarter", quarterOverrideExpr)] := by decide
    rw [dimExpr, hov]
    by_cases hq : d = "quarter"
    · subst hq
      have h1 : [("quarter", quarterOverrideExpr)].lookup "quarter" = some quarterOverrideExpr := by
        decide
      rw [h1]
      decide
    · have h1 : [("quarter", quarterOverrideExpr)].lookup d = none := by
        simp only [List.lookup, beq_eq_false_iff_ne.mpr hq]
      rw [h1]
      exact dimcol_ne d hd
  · have hov : overridesOf table = [] := by
      simp only [overridesOf, DIMENSION_TABLE_OVERRIDE, List.lookup,
        beq_eq_false_iff_ne.mpr ht, Option.getD_none]
    rw [dimExpr, hov]
    have h1 : ([] : List (String × String)).lookup d = none := rfl
    rw [h1]
    exact dimcol_ne d hd

theorem groupByOf_eq_empty_iff (plan : DslPlan) (table : String)
    (hdims : ∀ d ∈ plan.dimensions, d ≠ "") :
    groupByOf plan table = "" ↔ plan.dimensions = [] := by
  rw [groupByOf, joinSepComma_eq_empty_iff]
  · simp
  · intro x hx
    obtain ⟨d, hd, rfl⟩ := List.mem_map.mp hx
    exact dimExpr_ne_empty table d (hdims d hd)

theorem compile_ok_sql (vld : String → Option String) (plan : DslPlan)
    (constraints : Option Int) (fm : String) (ms : List String) (info : MetricInfo)
    (s : String) (hm : plan.metric_ids = fm :: ms) (hinfo : METRIC_SQL.lookup fm = some info)
    (h : compile_dsl_to_sql vld plan constraints = .ok s) :
    s = renderedSql plan constraints info := by
  rw [compile_dsl_to_sql, hm] at h
  simp only [hinfo] at h
  cases hv : vld (renderedSql plan constraints info) with
  | some msg =>
    simp only [hv] at h
    exact Except.noConfusion h
  | none =>
    simp only [hv, Except.ok.injEq] at h
    exact h.symm

theorem assembleSql_contains_from (sel : List String) (table : String) (wp : List String)
    (gb hv ob : String) (lim : Int) :
    strContains (assembleSql sel table wp gb hv ob lim) (" FROM " ++ table) = true := by
  apply strContains_of_eq _ ("SELECT " ++ joinSep ", " sel) (" FROM " ++ table)
    ((if wp.isEmpty then "" else " WHERE " ++ joinSep " AND " wp) ++
     ((if gb == "" then "" else " GROUP BY " ++ gb) ++
      ((if hv == "" then "" else " " ++ hv) ++
       ((if ob == "" then "" else " ORDER BY " ++ ob) ++
        (if lim == 0 then "" else " LIMIT " ++ toString lim)))))
  simp [assembleSql, sAppendAssoc]

theorem assembleSql_contains_having (sel : List String) (table : String) (wp : List String)
    (gb hv ob : String) (lim : Int) (h : hv ≠ "") :
    strContains (assembleSql sel table wp gb hv ob lim) hv = true := by
  apply strContains_of_eq _
    ("SELECT " ++ joinSep ", " sel ++ " FROM " ++ table ++
      (if wp.isEmpty then "" else " WHERE " ++ joinSep " AND " wp) ++
      (if gb == "" then "" else " GROUP BY " ++ gb) ++ " ") hv
    ((if ob == "" then "" else " ORDER BY " ++ ob) ++
     (if lim == 0 then "" else " LIMIT " ++ toString lim))
  simp [assembleSql, sAppendAssoc, beq_eq_false_iff_ne.mpr h]

/-! ## Helper lemmas: policy engine (one lemma per evaluation step) -/

theorem pe_nil (req : PolicyRequest) : policy_eval req [] = allowDecision := rfl

theorem pe_skip (req : PolicyRequest) (p : Policy) (rest : List Policy)
    (hm : p.matchReq req = false) :
    policy_eval req (p :: rest) = policy_eval req rest := by
  simp only [policy_eval, hm, Bool.false_eq_true, if_false]

theorem pe_exempt (req : PolicyRequest) (p : Policy) (rest : List Policy)
    (hm : p.matchReq req = true) (hc : p.allowed_roles.contains req.role = true) :
    policy_eval req (p :: rest) = policy_eval req rest := by
  simp only [policy_eval, hm, hc, eq_self_iff_true, if_true]

theorem pe_deny (req : PolicyRequest) (p : Policy) (rest : List Policy)
    (hm : p.matchReq req = true) (hc : p.allowed_roles.contains req.role = false)
    (ha : p.action = "DENY") :
    policy_eval req (p :: rest) =
      { decision := "DENY", constraints := none, rationale := p.rationale } := by
  simp only [policy_eval, hm, hc, ha, eq_self_iff_true, Bool.false_eq_true, if_true, if_false,
    beq_self_eq_true]

theorem pe_awc (req : PolicyRequest) (p : Policy) (rest : List Policy)
    (hm : p.matchReq req = true) (hc : p.allowed_roles.contains req.role = false)
    (ha : p.action = "ALLOW_WITH_CONSTRAINTS") :
    policy_eval req (p :: rest) =
      { decision := "ALLOW_WITH_CONSTRAINTS", constraints := p.constraints
        rationale := p.rationale } := by
  simp only [policy_eval, hm, hc, ha, eq_self_iff_true, Bool.false_eq_true, if_true, if_false,
    beq_self_eq_true, show (("ALLOW_WITH_CONSTRAINTS" : String) == "DENY") = false from by decide]

theorem min_aggregation_no_exempt (req : PolicyRequest) :
    min_aggregation.allowed_roles.contains req.role = false := rfl

theorem policy_eval_priv10 (req : PolicyRequest) (hpriv : req.privacy = some 10) :
    policy_eval req DEFAULT_POLICIES = denyDecision
    ∨ policy_eval req DEFAULT_POLICIES = allowDecision := by
  have hm2 : min_aggregation.matchReq req = false := by
    show decide (req.privacy.getD 10 < 10) = false
    simp [hpriv]
  have hrest : policy_eval req [min_aggregation] = allowDecision := by
    rw [pe_skip req min_aggregation [] hm2, pe_nil]
  unfold DEFAULT_POLICIES
  by_cases h1 : deny_narrative_fields.matchReq req = true
  · by_cases h2 : deny_narrative_fields.allowed_roles.contains req.role = true
    · right
      rw [pe_exempt req deny_narrative_fields [min_aggregation] h1 h2, hrest]
    · left
      rw [Bool.not_eq_true] at h2
      rw [pe_deny req deny_narrative_fields [min_aggregation] h1 h2 rfl]
      rfl
  · right
    rw [Bool.not_eq_true] at h1
    rw [pe_skip req deny_narrative_fields [min_aggregation] h1, hrest]

/-! ## Claims -/

/-- C3: a request carrying a HIGH-sensitivity field is DENIED immediately by the
first default rule (with its rationale and empty constraints) for every role
outside the exempt set, regardless of the request's privacy settings; for an
exempt role (compliance_officer or admin) the rule is bypassed and evaluation
continues, ending in a decision other than DENY. -/
theorem c3_high_sensitivity (req : PolicyRequest)
    (h : ∃ f ∈ req.fields_requested, strUpper f.sensitivity = "HIGH") :
    (req.role ∉ (["compliance_officer", "admin"] : List String) →
      policy_eval req DEFAULT_POLICIES =
        { decision := "DENY", constraints := none, rationale := deny_narrative_fields.rationale })
    ∧ (req.role ∈ (["compliance_officer", "admin"] : List String) →
      (policy_eval req DEFAULT_POLICIES).decision ≠ "DENY") := by
  have h1 : deny_narrative_fields.matchReq req = true := by
    show (req.fields_requested.any fun f => strUpper f.sensitivity == "HIGH") = true
    rw [List.any_eq_true]
    obtain ⟨f, hf, hs⟩ := h
    exact ⟨f, hf, by simp [hs]⟩
  constructor
  · intro hrole
    have h2 : deny_narrative_fields.allowed_roles.contains req.role = false := by
      show (["compliance_officer", "admin"] : List String).contains req.role = false
      simpa using hrole
    exact pe_deny req deny_narrative_fields [min_aggregation] h1 h2 rfl
  · intro hrole
    have h2 : deny_narrative_fields.allowed_roles.contains req.role = true := by
      show (["compliance_officer", "admin"] : List String).contains req.role = true
      simpa using hrole
    unfold DEFAULT_POLICIES
    rw [pe_exempt req deny_narrative_fields [min_aggregation] h1 h2]
    by_cases hm2 : min_aggregation.matchReq req = true
    · rw [pe_awc req min_aggregation [] hm2 (min_aggregation_no_exempt req) rfl]
      decide
    · rw [Bool.not_eq_true] at hm2
      rw [pe_skip req min_aggregation [] hm2, pe_nil]
      decide

/-- C3 witness: the analyst request with a HIGH field is denied with the rule's
rationale; the same request from an admin gets a non-DENY decision. -/
theorem c3_witness :
    policy_eval reqHighAnalyst DEFAULT_POLICIES =
      { decision := "DENY", constraints := none, rationale := deny_narrative_fields.rationale }
    ∧ (policy_eval reqHighAdmin DEFAULT_POLICIES).decision ≠ "DENY" :=
  ⟨(c3_high_sensitivity reqHighAnalyst ⟨narrativeField, by decide, by decide⟩).1 (by decide),
   (c3_high_sensitivity reqHighAdmin ⟨narrativeField, by decide, by decide⟩).2 (by decide)⟩

/-- C7: a request with no HIGH-sensitivity field and a requested minimum group
size below 10 gets ALLOW_WITH_CONSTRAINTS with min_group_size forced to 10 and
the privacy rationale, whatever the caller's role (no role is exempt). -/
theorem c7_min_aggregation_forces_10 (req : PolicyRequest)
    (hs : ∀ f ∈ req.fields_requested, strUpper f.sensitivity ≠ "HIGH")
    (hp : req.privacy.getD 10 < 10) :
    policy_eval req DEFAULT_POLICIES =
      { decision := "ALLOW_WITH_CONSTRAINTS", constraints := some 10
        rationale := min_aggregation.rationale } := by
  have h1 : deny_narrative_fields.matchReq req = false := by
    show (req.fields_requested.any fun f => strUpper f.sensitivity == "HIGH") = false
    rw [List.any_eq_false]
    intro f hf
    simp [hs f hf]
  have h2 : min_aggregation.matchReq req = true := by
    show decide (req.privacy.getD 10 < 10) = true
    simpa using hp
  unfold DEFAULT_POLICIES
  rw [pe_skip req deny_narrative_fields [min_aggregation] h1,
    pe_awc req min_aggregation [] h2 (min_aggregation_no_exempt req) rfl]
  rfl

/-- C7 witness: min_group_size 5 with no sensitive fields, role admin, yields
ALLOW_WITH_CONSTRAINTS with constraints.min_group_size = 10. -/
theorem c7_witness :
    policy_eval reqLowGroup DEFAULT_POLICIES =
      { decision := "ALLOW_WITH_CONSTRAINTS", constraints := some 10
        rationale := min_aggregation.rationale } :=
  c7_min_aggregation_forces_10 reqLowGroup (by decide) (by decide)

/-- C1: whenever the policy evaluation of the derived request returns DENY,
run_agent returns the terminal denied response carrying the decision, its
rationale as explanation, a non-empty alternative suggestion and the parsed
plan, with no SQL field (and no compilation or execution reached). -/
theorem c1_deny_short_circuit (env : Env) (query user_role : String)
    (h : (policy_eval (policyRequestOf (parse_nl_to_dsl env.clock query) user_role)
        DEFAULT_POLICIES).decision = "DENY") :
    run_agent env query user_role = .ok
      { status := "denied"
        policy := some (policy_eval (policyRequestOf (parse_nl_to_dsl env.clock query) user_role)
          DEFAULT_POLICIES)
        explanation := some (policy_eval
          (policyRequestOf (parse_nl_to_dsl env.clock query) user_role) DEFAULT_POLICIES).rationale
        alternative := some "Try a query without narrative fields, or request access elevation."
        dsl := some (parse_nl_to_dsl env.clock query).dsl
        sql := none, error := none, columnsOut := none, dataOut := none
        outlier_indices := none, evidence := none }
    ∧ ("Try a query without narrative fields, or request access elevation." : String) ≠ "" := by
  constructor
  · simp only [run_agent]
    rw [if_pos (beq_iff_eq.mpr h)]
  · decide

/-- C1 witness: the end-to-end narrative query from an analyst is denied. -/
theorem c1_witness :
    run_agent env1 "Can I see complaint narratives?" "analyst" = .ok resp2
    ∧ ("Try a query without narrative fields, or request access elevation." : String) ≠ "" := by
  refine ⟨?_, by decide⟩
  rw [(c1_deny_short_circuit env1 "Can I see complaint narratives?" "analyst" (by decide)).1]
  decide

/-- C9: the parser always emits privacy.min_group_size = 10 and limit = 200, so
the derived policy request never matches the min_aggregation rule and every
non-denied run_agent response that carries a policy decision carries ALLOW
(never ALLOW_WITH_CONSTRAINTS). -/
theorem c9_allow_invariant (env : Env) (query user_role : String) :
    (parse_nl_to_dsl env.clock query).dsl.privacy = some 10
    ∧ (parse_nl_to_dsl env.clock query).dsl.limit = 200
    ∧ min_aggregation.matchReq (policyRequestOf (parse_nl_to_dsl env.clock query) user_role)
        = false
    ∧ ∀ r, run_agent env query user_role = .ok r → r.status ≠ "denied" →
        ∀ d, r.policy = some d → d = allowDecision := by
  refine ⟨rfl, rfl, rfl, ?_⟩
  intro r hr hst d hd
  have hpriv : (policyRequestOf (parse_nl_to_dsl env.clock query) user_role).privacy = some 10 :=
    rfl
  rcases policy_eval_priv10 _ hpriv with hP | hP
  · exfalso
    apply hst
    simp only [run_agent] at hr
    rw [hP] at hr
    rw [if_pos (by decide : (denyDecision.decision == "DENY") = true)] at hr
    cases hr
    rfl
  · simp only [run_agent] at hr
    rw [hP] at hr
    rw [if_neg (by decide : ¬(allowDecision.decision == "DENY") = true)] at hr
    cases hc : compile_dsl_to_sql env.validate (parse_nl_to_dsl env.clock query).dsl
        allowDecision.constraints with
    | error e =>
      rw [hc] at hr
      exact absurd hr (by simp)
    | ok sql =>
      rw [hc] at hr
      simp only [] at hr
      cases he : env.exec sql with
      | error exc =>
        rw [he] at hr
        cases hr
        exact absurd hd (by simp)
      | ok pr =>
        obtain ⟨columns, rows⟩ := pr
        rw [he] at hr
        cases hr
        injection hd with hd2
        exact hd2.symm

/-- C9 witness: a concrete successful run whose response carries decision ALLOW. -/
theorem c9_witness :
    run_agent env1 "complaints" "analyst" = .ok resp1
    ∧ resp1.status ≠ "denied"
    ∧ resp1.policy = some allowDecision
    ∧ allowDecision = allowDecision := by
  refine ⟨by decide, by decide, by decide, ?_⟩
  exact (c9_allow_invariant env1 "complaints" "analyst").2.2.2 resp1 (by decide) (by decide)
    allowDecision (by decide)

/-- C2: the compiler emits the HAVING COUNT(*) >= t clause exactly when grouping
is present, the resolved source table is the record-level dp_complaints, and
the effective threshold t (policy constraint if present, else the plan's own
privacy setting) is nonzero; grouped queries against dp_call_reports never get
one; and an emitted clause appears verbatim in the compiled SQL. Dimension
identifiers are assumed non-empty, as the data model requires. -/
theorem c2_having_threshold (plan : DslPlan) (constraints : Option Int) (fm : String)
    (ms : List String) (info : MetricInfo)
    (hm : plan.metric_ids = fm :: ms) (hinfo : METRIC_SQL.lookup fm = some info)
    (hdims : ∀ d ∈ plan.dimensions, d ≠ "") :
    (havingClause (groupByOf plan info.table) (minGroupOf constraints plan) info.table ≠ ""
      ↔ plan.dimensions ≠ [] ∧ info.table = "dp_complaints" ∧ minGroupOf constraints plan ≠ 0)
    ∧ (havingClause (groupByOf plan info.table) (minGroupOf constraints plan) info.table ≠ "" →
        havingClause (groupByOf plan info.table) (minGroupOf constraints plan) info.table
          = "HAVING COUNT(*) >= " ++ toString (minGroupOf constraints plan))
    ∧ (info.table = "dp_call_reports" →
        havingClause (groupByOf plan info.table) (minGroupOf constraints plan) info.table = "")
    ∧ minGroupOf constraints plan
        = (match constraints with | some v => v | none => plan.privacy.getD 10)
    ∧ (∀ (vld : String → Option String) (s : String),
        compile_dsl_to_sql vld plan constraints = .ok s →
        havingClause (groupByOf plan info.table) (minGroupOf constraints plan) info.table ≠ "" →
        strContains s
          ("HAVING COUNT(*) >= " ++ toString (minGroupOf constraints plan)) = true) := by
  have hlit : ("HAVING COUNT(*) >= " ++ toString (minGroupOf constraints plan)) ≠ "" := by
    rw [Ne, strAppendEqEmpty]
    rintro ⟨hx, -⟩
    exact absurd hx (by decide)
  have hgbiff := groupByOf_eq_empty_iff plan info.table hdims
  have h2lit : havingClause (groupByOf plan info.table) (minGroupOf constraints plan)
        info.table ≠ "" →
      havingClause (groupByOf plan info.table) (minGroupOf constraints plan) info.table
        = "HAVING COUNT(*) >= " ++ toString (minGroupOf constraints plan) := by
    intro hne
    by_cases hc : groupByOf plan info.table ≠ "" ∧ minGroupOf constraints plan ≠ 0
        ∧ info.table = "dp_complaints"
    · rw [havingClause, if_pos hc]
    · exact absurd (by rw [havingClause, if_neg hc]) hne
  refine ⟨?_, h2lit, ?_, ?_, ?_⟩
  · have hcond : havingClause (groupByOf plan info.table) (minGroupOf constraints plan)
          info.table ≠ "" ↔
        groupByOf plan info.table ≠ "" ∧ minGroupOf constraints plan ≠ 0
          ∧ info.table = "dp_complaints" := by
      by_cases hc : groupByOf plan info.table ≠ "" ∧ minGroupOf constraints plan ≠ 0
          ∧ info.table = "dp_complaints"
      · rw [havingClause, if_pos hc]
        exact iff_of_true hlit hc
      · rw [havingClause, if_neg hc]
        exact iff_of_false (fun hne => hne rfl) hc
    rw [hcond]
    constructor
    · rintro ⟨h1, h2, h3⟩
      exact ⟨fun hnil => h1 (hgbiff.mpr hnil), h3, h2⟩
    · rintro ⟨h1, h2, h3⟩
      exact ⟨fun hgbe => h1 (hgbiff.mp hgbe), h3, h2⟩
  · intro ht
    rw [havingClause, if_neg]
    rintro ⟨-, -, h3⟩
    rw [ht] at h3
    exact absurd h3 (by decide)
  · cases constraints <;> rfl
  · intro vld s hcs hne
    have hs : s = renderedSql plan constraints info :=
      compile_ok_sql vld plan constraints fm ms info s hm hinfo hcs
    rw [hs]
    simp only [renderedSql]
    rw [← h2lit hne]
    exact assembleSql_contains_having _ _ _ _ _ _ _ hne

/-- C2 witness: a grouped complaint-volume plan with policy constraint 10 gets
the verbatim threshold clause; the same shape against the pre-aggregated
call-reports table gets none. -/
theorem c2_witness :
    havingClause (groupByOf planC2 cvInfo.table) (minGroupOf (some 10) planC2) cvInfo.table
      = "HAVING COUNT(*) >= " ++ toString (minGroupOf (some 10) planC2)
    ∧ havingClause (groupByOf planC2b niInfo.table) (minGroupOf (some 10) planC2b) niInfo.table
      = "" :=
  ⟨(c2_having_threshold planC2 (some 10) "complaint_volume" [] cvInfo (by decide) (by decide)
      (by decide)).2.1 (by decide),
   (c2_having_threshold planC2b (some 10) "net_income" [] niInfo (by decide) (by decide)
      (by decide)).2.2.1 (by decide)⟩

/-- C4: compilation fails with the "no metrics" error on an empty metric list,
fails with the unknown-metric error when the first metric is unregistered, and
otherwise (when the external SQL validator accepts the rendered text) succeeds
with SQL whose FROM table is the first metric's registered source table. -/
theorem c4_compile_contract (vld : String → Option String) (plan : DslPlan)
    (constraints : Option Int) :
    (plan.metric_ids = [] →
      compile_dsl_to_sql vld plan constraints = .error "No metrics specified in DSL plan")
    ∧ (∀ fm ms, plan.metric_ids = fm :: ms → METRIC_SQL.lookup fm = none →
        compile_dsl_to_sql vld plan constraints = .error ("Unknown metric: " ++ fm))
    ∧ (∀ fm ms info, plan.metric_ids = fm :: ms → METRIC_SQL.lookup fm = some info →
        vld (renderedSql plan constraints info) = none →
        compile_dsl_to_sql vld plan constraints = .ok (renderedSql plan constraints info)
        ∧ strContains (renderedSql plan constraints info) (" FROM " ++ info.table) = true) := by
  refine ⟨?_, ?_, ?_⟩
  · intro hm
    rw [compile_dsl_to_sql, hm]
  · intro fm ms hm hlk
    rw [compile_dsl_to_sql, hm]
    simp only [hlk]
  · intro fm ms info hm hlk hv
    constructor
    · rw [compile_dsl_to_sql, hm]
      simp only [hlk, hv]
    · simp only [renderedSql]
      exact assembleSql_contains_from _ _ _ _ _ _ _

/-- C4 witness: the three contract cases at concrete plans. -/
theorem c4_witness :
    compile_dsl_to_sql (fun _ => none) planNoMetrics (some 10)
      = .error "No metrics specified in DSL plan"
    ∧ compile_dsl_to_sql (fun _ => none) planBadMetric (some 10)
      = .error ("Unknown metric: " ++ "bogus_metric")
    ∧ compile_dsl_to_sql (fun _ => none) planC2 none = .ok (renderedSql planC2 none cvInfo)
    ∧ strContains (renderedSql planC2 none cvInfo) (" FROM " ++ cvInfo.table) = true := by
  have h3 := (c4_compile_contract (fun _ => none) planC2 none).2.2 "complaint_volume" [] cvInfo
    (by decide) (by decide) rfl
  exact ⟨(c4_compile_contract (fun _ => none) planNoMetrics (some 10)).1 (by decide),
    (c4_compile_contract (fun _ => none) planBadMetric (some 10)).2.1 "bogus_metric" []
      (by decide) (by decide),
    h3.1, h3.2⟩

/-- C5 counterexample: with four rows where column "b" is null in the first row
but numeric later, the spec's "numeric in at least one observed row" selection
picks "b", while the code (which observes only rows[:1]) picks "a". -/
theorem c5_counterexample :
    4 ≤ c5rows.length
    ∧ metricColSpec c5cols c5rows = some "b"
    ∧ (numericCols c5cols c5rows).getLast? = some "a"
    ∧ (numericCols c5cols c5rows).getLast? ≠ metricColSpec c5cols c5rows := by
  decide

/-- C5 amended: the metric column picked by the outlier scan is the last result
column whose value in the FIRST row is numeric; a column that is non-numeric in
the first row but numeric in a later row does not qualify. -/
theorem c5_metric_col_first_row (columns : List String) (rows : List (List Value)) :
    ((numericCols columns rows).getLast? =
      (columns.filter (fun c =>
        match rows.head? with
        | some row => isNumericValue (row.getD (columns.indexOf c) Value.null)
        | none => false)).getLast?)
    ∧ (numericCols c5cols c5rows).getLast? = some "a" := by
  constructor
  · cases rows with
    | nil => simp [numericCols]
    | cons r rs => simp [numericCols]
  · decide

/-- C6: the outlier scan computes Q1 and Q3 at ranks n/4 and 3n/4 of the sorted
(ascending, as witnessed by Sorted and the permutation property) numeric values
of the metric column and flags exactly the rows outside the 1.5-IQR fences; it
runs only when at least 4 rows are present; on [10,12,11,13,12,90] it flags
exactly the row holding 90. -/
theorem c6_outlier_iqr (columns : List String) (rows : List (List Value)) :
    (∀ c, (numericCols columns rows).getLast? = some c → 4 ≤ rows.length →
      (detectOutliers columns rows =
        (let col_idx := columns.indexOf c
         let values := sortAsc (rows.filterMap (fun row => toNum (row.getD col_idx Value.null)))
         let q1 := values.getD (values.length / 4) 0
         let q3 := values.getD (3 * values.length / 4) 0
         let lo := q1 - (1.5 : ℚ) * (q3 - q1)
         let hi := q3 + (1.5 : ℚ) * (q3 - q1)
         rows.enum.filterMap (fun p =>
           match toNum (p.2.getD col_idx Value.null) with
           | some v => if v < lo ∨ v > hi then some p.1 else none
           | none => none)))
      ∧ List.Sorted (· ≤ ·)
          (sortAsc (rows.filterMap (fun row => toNum (row.getD (columns.indexOf c) Value.null))))
      ∧ List.Perm
          (sortAsc (rows.filterMap (fun row => toNum (row.getD (columns.indexOf c) Value.null))))
          (rows.filterMap (fun row => toNum (row.getD (columns.indexOf c) Value.null))))
    ∧ (rows.length < 4 → detectOutliers columns rows = [])
    ∧ detectOutliers ["v"] c6rows = [5] := by
  refine ⟨?_, ?_, by decide⟩
  · intro c hc hlen
    refine ⟨?_, List.sorted_insertionSort _ _, List.perm_insertionSort _ _⟩
    rw [detectOutliers, hc]
    simp only []
    rw [if_pos hlen]
  · intro hlen
    cases hlast : (numericCols columns rows).getLast? with
    | none => rw [detectOutliers, hlast]
    | some c =>
      rw [detectOutliers, hlast]
      simp only []
      rw [if_neg (by omega)]

/-- C6 witness: the characterisation and the small-result guard at concrete
inputs; on the six-value column exactly index 5 (value 90) is flagged. -/
theorem c6_witness :
    (detectOutliers ["v"] c6rows =
      (let col_idx := (["v"] : List String).indexOf "v"
       let values := sortAsc (c6rows.filterMap (fun row => toNum (row.getD col_idx Value.null)))
       let q1 := values.getD (values.length / 4) 0
       let q3 := values.getD (3 * values.length / 4) 0
       let lo := q1 - (1.5 : ℚ) * (q3 - q1)
       let hi := q3 + (1.5 : ℚ) * (q3 - q1)
       c6rows.enum.filterMap (fun p =>
         match toNum (p.2.getD col_idx Value.null) with
         | some v => if v < lo ∨ v > hi then some p.1 else none
         | none => none)))
    ∧ detectOutliers ["v"] [[Value.num 1]] = [] :=
  ⟨((c6_outlier_iqr ["v"] c6rows).1 "v" (by decide) (by decide)).1,
   (c6_outlier_iqr ["v"] [[Value.num 1]]).2.1 (by decide)⟩

/-- C8 counterexample: the empty query (no intent keyword at all) parses to the
fallback intent "analysis", so "analysis" is reachable and the detected intent
is not always "chart" or "table". -/
theorem c8_counterexample :
    detect_intent "" = "analysis" ∧ detect_intent "" ≠ "chart" ∧ detect_intent "" ≠ "table" := by
  decide

/-- C8 amended: for every query the detected intent is one of "chart", "table"
or "analysis"; chart-class keywords take precedence; and the fallback
"analysis" is reachable (for queries with no intent keyword, e.g. the empty
query). -/
theorem c8_intent_range (query : String) :
    (detect_intent query = "chart" ∨ detect_intent query = "table"
      ∨ detect_intent query = "analysis")
    ∧ ((["chart", "trend", "plot", "graph", "visuali"].any
        (fun w => strContains (strLower query) w)) = true → detect_intent query = "chart")
    ∧ detect_intent "" = "analysis" := by
  refine ⟨?_, ?_, by decide⟩
  · simp only [detect_intent]
    split
    · exact Or.inl rfl
    · split
      · exact Or.inr (Or.inl rfl)
      · exact Or.inr (Or.inr rfl)
  · intro h
    simp only [detect_intent]
    rw [if_pos h]

/-- C8 witness: a chart keyword forces intent "chart". -/
theorem c8_witness : detect_intent "show a chart" = "chart" :=
  (c8_intent_range "show a chart").2.1 (by decide)

/-- C10: every quality record reports tests_passed = true unconditionally, and
the records are exactly the catalog data products whose name is among the
requested dataset ids, in catalog order. -/
theorem c10_quality_status (dataset_ids : List String) (catalog : List DataProduct) :
    (∀ rec ∈ quality_status dataset_ids catalog, rec.tests_passed = true)
    ∧ (quality_status dataset_ids catalog).map (fun rec => rec.dataset)
        = (catalog.filter (fun dp => dataset_ids.contains dp.name)).map (fun dp => dp.name) := by
  constructor
  · intro rec hrec
    rw [quality_status] at hrec
    obtain ⟨dp, -, rfl⟩ := List.mem_map.mp hrec
    rfl
  · rw [quality_status, List.map_map]
    rfl

/-- C10 witness: one matching product out of two yields exactly its record with
tests_passed = true. -/
theorem c10_witness :
    c10record.tests_passed = true
    ∧ (quality_status ["dp_complaints"] c10catalog).map (fun rec => rec.dataset)
        = ["dp_complaints"] := by
  constructor
  · exact (c10_quality_status ["dp_complaints"] c10catalog).1 c10record (by decide)
  · rw [(c10_quality_status ["dp_complaints"] c10catalog).2]
    decide
